import Mathlib

/-!
Verification of the phototank ingest/validate pipeline core: a shallow
embedding of the catalog upsert (`app/core/db.py`), derivative
regeneration policy (`app/services/derivatives.py`), reverse-geocoding
enrichment (`app/geocode.py`), ingest-item placement and quarantine
(`app/processing/jobs/ingest.py`), and the commit retry wrapper
(`app/processing/job_helpers.py`).

SQLite REAL columns and Python floats are modelled as `Rat`; epoch
seconds as `Int`; nullable columns as `Option`; the filesystem, the
monotonic clock and the network are passed in explicitly as values or
oracle parameters.
-/

namespace Phototank

/-! ## Catalog data model (`app/core/models.py`, `app/scanner.py`) -/

/-- A row of the `photos` table (`class Photo` in `app/core/models.py`). -/
structure PhotoRow where
  guid : String
  rel_path : String
  datetime_original : Option String
  gps_altitude : Option Rat
  gps_latitude : Option Rat
  gps_longitude : Option Rat
  camera_make : Option String
  file_size : Int
  source_mtime : Option Int
  width : Option Int
  height : Option Int
  user_comment : Option String
  rating : Int
  indexed_at : String
  exif_error : Option String
  geo_country_code : Option String
  geo_country : Option String
  geo_city : Option String
  geo_city_norm : Option String
  geo_region : Option String
  geo_postcode : Option String
  geo_display_name : Option String
  geo_provider : Option String
  geo_cache_key : Option String
  geo_lookup_at : Option String
  geo_lookup_status : Option String
  geo_lookup_error : Option String
  deriving DecidableEq, Repr

/-- The `PhotoRecord` dataclass built by the scanner (`app/scanner.py`). -/
structure PhotoRecord where
  guid : String
  rel_path : String
  datetime_original : Option String
  gps_altitude : Option Rat
  gps_latitude : Option Rat
  gps_longitude : Option Rat
  camera_make : Option String
  file_size : Int
  source_mtime : Option Int
  width : Option Int
  height : Option Int
  user_comment : Option String
  indexed_at : String
  exif_error : Option String
  deriving DecidableEq, Repr

/-- The `set_=` clause of `upsert_photo`'s `on_conflict_do_update`
(`app/core/db.py` lines 96-112): exactly twelve columns are overwritten
from the excluded (incoming) record; everything else keeps the existing
row's value. -/
def applyUpsertUpdate (r : PhotoRow) (rec : PhotoRecord) : PhotoRow :=
  { r with
    datetime_original := rec.datetime_original
    gps_altitude := rec.gps_altitude
    gps_latitude := rec.gps_latitude
    gps_longitude := rec.gps_longitude
    camera_make := rec.camera_make
    file_size := rec.file_size
    source_mtime := rec.source_mtime
    width := rec.width
    height := rec.height
    user_comment := rec.user_comment
    indexed_at := rec.indexed_at
    exif_error := rec.exif_error }

/-- A fresh row inserted by `upsert_photo` when no `rel_path` conflict
occurs: all record fields are taken over, `rating` defaults to 0
(`values.setdefault("rating", 0)`), and the reverse-geocode columns are
NULL. -/
def newRowFromRecord (rec : PhotoRecord) : PhotoRow :=
  { guid := rec.guid
    rel_path := rec.rel_path
    datetime_original := rec.datetime_original
    gps_altitude := rec.gps_altitude
    gps_latitude := rec.gps_latitude
    gps_longitude := rec.gps_longitude
    camera_make := rec.camera_make
    file_size := rec.file_size
    source_mtime := rec.source_mtime
    width := rec.width
    height := rec.height
    user_comment := rec.user_comment
    rating := 0
    indexed_at := rec.indexed_at
    exif_error := rec.exif_error
    geo_country_code := none
    geo_country := none
    geo_city := none
    geo_city_norm := none
    geo_region := none
    geo_postcode := none
    geo_display_name := none
    geo_provider := none
    geo_cache_key := none
    geo_lookup_at := none
    geo_lookup_status := none
    geo_lookup_error := none }

/-- `upsert_photo(session, rec)` (`app/core/db.py` lines 89-123).
The catalog is the list of `photos` rows; `rel_path` carries a unique
index, so the `ON CONFLICT (rel_path) DO UPDATE` branch fires exactly
when a row with `rec.rel_path` already exists, updates that row, and
the function returns the existing row's `guid` (via `RETURNING guid`,
or the `SELECT guid WHERE rel_path = ...` fallback — both yield the
stored guid). Without a conflict the record is inserted as a new row
and its own guid is returned. -/
def upsert_photo (catalog : List PhotoRow) (rec : PhotoRecord) :
    List PhotoRow × String :=
  match catalog.find? (fun r => r.rel_path = rec.rel_path) with
  | some existing =>
      (catalog.map (fun r =>
        if r.rel_path = rec.rel_path then applyUpsertUpdate r rec else r),
       existing.guid)
  | none => (catalog ++ [newRowFromRecord rec], rec.guid)

/-- Claim C1: re-ingesting an existing `rel_path` returns the stored
guid, does not add a row, keeps every row's `rel_path`, `guid` and
`rating` unchanged (so the existing row's rating survives), and a
record with a fresh `rel_path` is inserted as a new row with rating 0. -/
theorem upsert_photo_idempotent_reingest
    (catalog : List PhotoRow) (rec : PhotoRecord) (existing : PhotoRow)
    (h : catalog.find? (fun r => r.rel_path = rec.rel_path) = some existing) :
    (upsert_photo catalog rec).2 = existing.guid ∧
    (upsert_photo catalog rec).1.length = catalog.length ∧
    (upsert_photo catalog rec).1 =
      catalog.map (fun r =>
        if r.rel_path = rec.rel_path then applyUpsertUpdate r rec else r) ∧
    (∀ r : PhotoRow,
      (applyUpsertUpdate r rec).rating = r.rating ∧
      (applyUpsertUpdate r rec).guid = r.guid ∧
      (applyUpsertUpdate r rec).rel_path = r.rel_path) ∧
    (∀ (catalog₂ : List PhotoRow) (rec₂ : PhotoRecord),
      catalog₂.find? (fun r => r.rel_path = rec₂.rel_path) = none →
      (upsert_photo catalog₂ rec₂).1 = catalog₂ ++ [newRowFromRecord rec₂] ∧
      (newRowFromRecord rec₂).rating = 0) := by
  refine ⟨?_, ?_, ?_, ?_, ?_⟩
  · simp [upsert_photo, h]
  · simp [upsert_photo, h]
  · simp [upsert_photo, h]
  · intro r
    exact ⟨rfl, rfl, rfl⟩
  · intro catalog₂ rec₂ h₂
    exact ⟨by simp [upsert_photo, h₂], rfl⟩

/-- Sample record/row used to instantiate the upsert theorems. -/
def sampleRecord : PhotoRecord :=
  { guid := "aaaaaaaaaaaaaaaaaaaaaaaaaaaaaaaa"
    rel_path := "2020/01/01/a.jpg"
    datetime_original := some "2020-01-01T00:00:00"
    gps_altitude := none
    gps_latitude := some 48
    gps_longitude := some 2
    camera_make := some "Canon"
    file_size := 100
    source_mtime := some 1000
    width := some 640
    height := some 480
    user_comment := none
    indexed_at := "2024-01-01T00:00:00+00:00"
    exif_error := none }

/-- A pre-existing catalog row for the same `rel_path` as
`sampleRecord` but a different guid, a nonzero rating and populated
geocode fields. -/
def sampleExistingRow : PhotoRow :=
  { guid := "bbbbbbbbbbbbbbbbbbbbbbbbbbbbbbbb"
    rel_path := "2020/01/01/a.jpg"
    datetime_original := some "2019-06-01T12:00:00"
    gps_altitude := some 12
    gps_latitude := some 55
    gps_longitude := some 12
    camera_make := some "Nikon"
    file_size := 50
    source_mtime := some 900
    width := some 320
    height := some 240
    user_comment := some "old"
    rating := 3
    indexed_at := "2023-01-01T00:00:00+00:00"
    exif_error := none
    geo_country_code := some "DK"
    geo_country := some "Denmark"
    geo_city := some "Copenhagen"
    geo_city_norm := some "copenhagen"
    geo_region := some "Capital"
    geo_postcode := some "1000"
    geo_display_name := some "Copenhagen, Capital, Denmark"
    geo_provider := some "geonames"
    geo_cache_key := some "geonames:100:1:2"
    geo_lookup_at := some "2023-01-01T00:00:00+00:00"
    geo_lookup_status := some "ok"
    geo_lookup_error := none }

/-- Witness for C1 at a concrete catalog of one conflicting row. -/
theorem upsert_photo_idempotent_reingest_witness :
    (upsert_photo [sampleExistingRow] sampleRecord).2 = sampleExistingRow.guid ∧
    (upsert_photo [sampleExistingRow] sampleRecord).1.length = 1 := by
  have h :
      [sampleExistingRow].find? (fun r => r.rel_path = sampleRecord.rel_path) =
        some sampleExistingRow := by decide
  have := upsert_photo_idempotent_reingest [sampleExistingRow] sampleRecord
    sampleExistingRow h
  exact ⟨this.1, this.2.1⟩

/-- Claim C10: on the `rel_path`-conflict branch the result catalog is
the old catalog with each conflicting row rewritten field by field —
the twelve `set_` columns take the incoming record's values and every
other column (`guid`, `rating`, all `geo_*` columns) is literally the
old row's value — and non-conflicting rows are untouched. -/
theorem upsert_photo_conflict_frame
    (catalog : List PhotoRow) (rec : PhotoRecord) (existing : PhotoRow)
    (h : catalog.find? (fun r => r.rel_path = rec.rel_path) = some existing) :
    (upsert_photo catalog rec).1 =
      catalog.map (fun r =>
        if r.rel_path = rec.rel_path then
          { guid := r.guid
            rel_path := r.rel_path
            datetime_original := rec.datetime_original
            gps_altitude := rec.gps_altitude
            gps_latitude := rec.gps_latitude
            gps_longitude := rec.gps_longitude
            camera_make := rec.camera_make
            file_size := rec.file_size
            source_mtime := rec.source_mtime
            width := rec.width
            height := rec.height
            user_comment := rec.user_comment
            rating := r.rating
            indexed_at := rec.indexed_at
            exif_error := rec.exif_error
            geo_country_code := r.geo_country_code
            geo_country := r.geo_country
            geo_city := r.geo_city
            geo_city_norm := r.geo_city_norm
            geo_region := r.geo_region
            geo_postcode := r.geo_postcode
            geo_display_name := r.geo_display_name
            geo_provider := r.geo_provider
            geo_cache_key := r.geo_cache_key
            geo_lookup_at := r.geo_lookup_at
            geo_lookup_status := r.geo_lookup_status
            geo_lookup_error := r.geo_lookup_error }
        else r) := by
  simp only [upsert_photo, h]
  rfl

/-- Witness for C10 on the one-row catalog. -/
theorem upsert_photo_conflict_frame_witness :
    (upsert_photo [sampleExistingRow] sampleRecord).1 =
      [{ sampleExistingRow with
          datetime_original := sampleRecord.datetime_original
          gps_altitude := sampleRecord.gps_altitude
          gps_latitude := sampleRecord.gps_latitude
          gps_longitude := sampleRecord.gps_longitude
          camera_make := sampleRecord.camera_make
          file_size := sampleRecord.file_size
          source_mtime := sampleRecord.source_mtime
          width := sampleRecord.width
          height := sampleRecord.height
          user_comment := sampleRecord.user_comment
          indexed_at := sampleRecord.indexed_at
          exif_error := sampleRecord.exif_error }] := by
  have h :
      [sampleExistingRow].find? (fun r => r.rel_path = sampleRecord.rel_path) =
        some sampleExistingRow := by decide
  have := upsert_photo_conflict_frame [sampleExistingRow] sampleRecord
    sampleExistingRow h
  rw [this]
  decide

/-! ## Derivative generation (`app/services/derivatives.py`) -/

/-- Result record of `ensure_derivatives` (dataclass `DerivResult`). -/
structure DerivResult where
  thumb_created : Bool
  mid_created : Bool
  deriving DecidableEq, Repr

/-- The filesystem state relevant to one photo's derivatives: the mtime
of the thumb and mid output files (`none` = file missing), and whether
the existing mid file carries an EXIF block. -/
structure DerivFS where
  thumb : Option Int
  mid : Option Int
  midHasExif : Bool
  deriving DecidableEq, Repr

/-- `_should_regen(out_path, source_mtime)` (`app/services/derivatives.py`
lines 37-45): regenerate when the output is missing; with an unknown
source mtime an existing output is kept; otherwise regenerate when the
output's stored mtime is strictly below the source mtime. (The
`except`-on-`stat` branch cannot arise in this model because the
output's mtime is part of the state.) -/
def should_regen (out_mtime : Option Int) (source_mtime : Option Int) : Bool :=
  match out_mtime with
  | none => true
  | some m =>
      match source_mtime with
      | none => false
      | some s => m < s

/-- `_mid_has_exif(mpath)`: false when the mid file is missing,
otherwise whether it carries an EXIF block. -/
def mid_has_exif (fs : DerivFS) : Bool :=
  fs.mid.isSome && fs.midHasExif

/-- `ensure_derivatives` (`app/services/derivatives.py` lines 96-139).
`now` is the wall-clock time at which a regenerated output file is
written (its resulting `st_mtime`); `source_has_exif` is whether
`_extract_mid_exif_bytes` yields a block, which the regenerated mid
then carries. Returns the updated filesystem and the `DerivResult`. -/
def ensure_derivatives (fs : DerivFS) (source_mtime : Option Int)
    (repair_mid_exif : Bool) (source_has_exif : Bool) (now : Int) :
    DerivFS × DerivResult :=
  let need_thumb := should_regen fs.thumb source_mtime
  let need_mid0 := should_regen fs.mid source_mtime
  let need_mid :=
    if repair_mid_exif && !need_mid0 && !(mid_has_exif fs) then true
    else need_mid0
  if !(need_thumb || need_mid) then
    (fs, { thumb_created := false, mid_created := false })
  else
    let fs1 := if need_thumb then { fs with thumb := some now } else fs
    let fs2 :=
      if need_mid then { fs1 with mid := some now, midHasExif := source_has_exif }
      else fs1
    (fs2, { thumb_created := need_thumb, mid_created := need_mid })

/-- Claim C2 counterexample: two concrete failures of the claim as
stated. (a) Staleness monotonicity fails: both derivatives are first
generated with `source_mtime = 50` at wall-clock time 100; a later call
with `source_mtime = 60 > 50` regenerates nothing, because the output
file's mtime is the write time 100, not the source mtime it was
generated against. (b) With `repair_mid_exif` set, an existing mid
without an EXIF block is regenerated even though `source_mtime` is
`none`, contradicting "when source_mtime is None an existing output is
never regenerated". -/
theorem ensure_derivatives_claim_counterexample :
    (ensure_derivatives
        (ensure_derivatives ⟨none, none, false⟩ (some 50) false true 100).1
        (some 60) false true 101).2.thumb_created = false ∧
    (ensure_derivatives ⟨some 5, some 5, false⟩ none true true 7).2.mid_created
      = true := by
  constructor
  · rfl
  · rfl

/-- With `repair_mid_exif` disabled, the reported result of
`ensure_derivatives` is exactly `_should_regen` evaluated on each
output. -/
theorem ensure_derivatives_result_eq (fs : DerivFS) (sm : Option Int)
    (se : Bool) (now : Int) :
    (ensure_derivatives fs sm false se now).2 =
      { thumb_created := should_regen fs.thumb sm
        mid_created := should_regen fs.mid sm } := by
  simp only [ensure_derivatives, Bool.false_and, Bool.false_eq_true,
    if_false]
  by_cases ht : should_regen fs.thumb sm <;>
    by_cases hm : should_regen fs.mid sm <;> simp [ht, hm]

/-- With `repair_mid_exif` disabled, the thumb output's mtime after
`ensure_derivatives` is the write time when regenerated and unchanged
otherwise. -/
theorem ensure_derivatives_state_thumb (fs : DerivFS) (sm : Option Int)
    (se : Bool) (now : Int) :
    (ensure_derivatives fs sm false se now).1.thumb =
      (if should_regen fs.thumb sm then some now else fs.thumb) := by
  simp only [ensure_derivatives, Bool.false_and, Bool.false_eq_true,
    if_false]
  by_cases ht : should_regen fs.thumb sm <;>
    by_cases hm : should_regen fs.mid sm <;> simp [ht, hm]

/-- With `repair_mid_exif` disabled, the mid output's mtime after
`ensure_derivatives` is the write time when regenerated and unchanged
otherwise. -/
theorem ensure_derivatives_state_mid (fs : DerivFS) (sm : Option Int)
    (se : Bool) (now : Int) :
    (ensure_derivatives fs sm false se now).1.mid =
      (if should_regen fs.mid sm then some now else fs.mid) := by
  simp only [ensure_derivatives, Bool.false_and, Bool.false_eq_true,
    if_false]
  by_cases ht : should_regen fs.thumb sm <;>
    by_cases hm : should_regen fs.mid sm <;> simp [ht, hm]

/-- `_should_regen` unfolded into the spec's disjunction. -/
theorem should_regen_eq_true_iff (o sm : Option Int) :
    should_regen o sm = true ↔
      o = none ∨ ∃ m s, o = some m ∧ sm = some s ∧ m < s := by
  cases o with
  | none => simp [should_regen]
  | some m =>
      cases sm with
      | none => simp [should_regen]
      | some s => simp [should_regen]

/-- An output written at or after the source mtime is not regenerated
again for that same source mtime. -/
theorem should_regen_after_write (o : Option Int) (s now : Int)
    (hw : s ≤ now) :
    should_regen (if should_regen o (some s) then some now else o)
      (some s) = false := by
  cases o with
  | none => simp [should_regen, Int.not_lt.mpr hw]
  | some m =>
      by_cases hm : m < s
      · simp [should_regen, hm, Int.not_lt.mpr hw]
      · simp [should_regen, hm]

/-- Claim C2 (amended): with `repair_mid_exif` disabled, an output is
regenerated exactly when it is missing or when the source mtime is
known and the output file's mtime is strictly older; in particular with
an unknown source mtime an existing output is never regenerated.
Regeneration stamps the output with the wall-clock write time `now`, so
for `s2 > s1` a derivative generated against `s1` at write time `now`
is regenerated by a later call with `s2` exactly when `now < s2`; and a
second call with the same mtime regenerates nothing provided the first
write did not happen before the source mtime (`s1 ≤ now`). -/
theorem ensure_derivatives_regen_policy
    (fs : DerivFS) (sm : Option Int) (se : Bool) (now : Int)
    (s1 s2 now2 : Int) (h12 : s1 < s2) (hw : s1 ≤ now) :
    ((ensure_derivatives fs sm false se now).2.thumb_created = true ↔
      fs.thumb = none ∨ ∃ m s, fs.thumb = some m ∧ sm = some s ∧ m < s) ∧
    ((ensure_derivatives fs sm false se now).2.mid_created = true ↔
      fs.mid = none ∨ ∃ m s, fs.mid = some m ∧ sm = some s ∧ m < s) ∧
    (fs.thumb = none →
      ((ensure_derivatives
          (ensure_derivatives fs (some s1) false se now).1
          (some s2) false se now2).2.thumb_created = true ↔ now < s2)) ∧
    ((ensure_derivatives
        (ensure_derivatives fs (some s1) false se now).1
        (some s1) false se now2).2 =
      { thumb_created := false, mid_created := false }) := by
  refine ⟨?_, ?_, ?_, ?_⟩
  · rw [ensure_derivatives_result_eq]
    exact should_regen_eq_true_iff fs.thumb sm
  · rw [ensure_derivatives_result_eq]
    exact should_regen_eq_true_iff fs.mid sm
  · intro hth
    rw [ensure_derivatives_result_eq, ensure_derivatives_state_thumb, hth]
    simp [should_regen]
  · rw [ensure_derivatives_result_eq, ensure_derivatives_state_thumb,
      ensure_derivatives_state_mid,
      should_regen_after_write fs.thumb s1 now hw,
      should_regen_after_write fs.mid s1 now hw]

/-- Witness for the amended C2 at concrete mtimes. -/
theorem ensure_derivatives_regen_policy_witness :
    ((ensure_derivatives ⟨none, some 3, true⟩ (some 5) false true 10).2.thumb_created
        = true ↔
      (⟨none, some 3, true⟩ : DerivFS).thumb = none ∨
        ∃ m s, (⟨none, some 3, true⟩ : DerivFS).thumb = some m ∧
          (some 5 : Option Int) = some s ∧ m < s) ∧
    (5 : Int) < 8 ∧ (5 : Int) ≤ 10 := by
  refine ⟨?_, by decide, by decide⟩
  exact (ensure_derivatives_regen_policy ⟨none, some 3, true⟩ (some 5) true 10
    5 8 11 (by decide) (by decide)).1

/-! ## Replace-by-name EXIF merge (`app/processing/jobs/ingest.py`) -/

/-- Python truthiness for an optional string: `None` and `""` are
falsy. -/
def truthyStr : Option String → Bool
  | none => false
  | some s => s ≠ ""

/-- Python `a or b` on optional strings: `b` exactly when `a` is falsy
(`None` or empty). -/
def pyOr (a b : Option String) : Option String :=
  if truthyStr a then a else b

/-- The `dataclasses.replace(rec, ...)` merge in the replace-by-name
branch of `run_ingest_job` (`app/processing/jobs/ingest.py` lines
281-289), restricted to the six merged fields. `rec` is the freshly
rebuilt record, `existing` the previous catalog row. -/
structure MergeFields where
  datetime_original : Option String
  gps_altitude : Option Rat
  gps_latitude : Option Rat
  gps_longitude : Option Rat
  camera_make : Option String
  user_comment : Option String
  deriving DecidableEq, Repr

/-- Field-by-field port of the merge: `datetime_original` is
`existing.datetime_original or rec.datetime_original`; each GPS field is
`rec.x if rec.x is not None else existing.x`; `camera_make` and
`user_comment` are `rec.x or existing.x`. -/
def merge_replace_fields (rec existing : MergeFields) : MergeFields :=
  { datetime_original := pyOr existing.datetime_original rec.datetime_original
    gps_altitude :=
      match rec.gps_altitude with
      | some a => some a
      | none => existing.gps_altitude
    gps_latitude :=
      match rec.gps_latitude with
      | some a => some a
      | none => existing.gps_latitude
    gps_longitude :=
      match rec.gps_longitude with
      | some a => some a
      | none => existing.gps_longitude
    camera_make := pyOr rec.camera_make existing.camera_make
    user_comment := pyOr rec.user_comment existing.user_comment }

/-- Claim C3 counterexample: when both the newly extracted record and
the previous row carry a (non-empty) capture date, the merged record
keeps the previous row's date, not the newly extracted one — the date
field prefers the old value, contrary to the claim. -/
theorem merge_replace_fields_date_counterexample :
    (merge_replace_fields
        { datetime_original := some "2024-05-05T10:00:00"
          gps_altitude := none, gps_latitude := none, gps_longitude := none
          camera_make := none, user_comment := none }
        { datetime_original := some "2020-01-01T00:00:00"
          gps_altitude := none, gps_latitude := none, gps_longitude := none
          camera_make := none, user_comment := none }).datetime_original =
      some "2020-01-01T00:00:00" := by
  decide

/-- Claim C3 (amended): in the replace-by-name merge the GPS
latitude/longitude/altitude fields take the newly extracted value and
fall back to the previous row's value exactly when the new one is null;
camera make and user comment take the newly extracted value and fall
back exactly when the new one is null/empty; the date field is merged
the other way round — it keeps the previous row's date and takes the
newly extracted date only when the previous one is null/empty. -/
theorem merge_replace_fields_spec (rec existing : MergeFields) :
    ((merge_replace_fields rec existing).gps_latitude =
      if rec.gps_latitude.isSome then rec.gps_latitude
      else existing.gps_latitude) ∧
    ((merge_replace_fields rec existing).gps_longitude =
      if rec.gps_longitude.isSome then rec.gps_longitude
      else existing.gps_longitude) ∧
    ((merge_replace_fields rec existing).gps_altitude =
      if rec.gps_altitude.isSome then rec.gps_altitude
      else existing.gps_altitude) ∧
    ((merge_replace_fields rec existing).camera_make =
      if truthyStr rec.camera_make then rec.camera_make
      else existing.camera_make) ∧
    ((merge_replace_fields rec existing).user_comment =
      if truthyStr rec.user_comment then rec.user_comment
      else existing.user_comment) ∧
    ((merge_replace_fields rec existing).datetime_original =
      if truthyStr existing.datetime_original then existing.datetime_original
      else rec.datetime_original) ∧
    (truthyStr existing.datetime_original = false →
      (merge_replace_fields rec existing).datetime_original =
        rec.datetime_original) := by
  refine ⟨?_, ?_, ?_, rfl, rfl, rfl, ?_⟩
  · simp only [merge_replace_fields]
    cases h : rec.gps_latitude <;> simp [h]
  · simp only [merge_replace_fields]
    cases h : rec.gps_longitude <;> simp [h]
  · simp only [merge_replace_fields]
    cases h : rec.gps_altitude <;> simp [h]
  · intro hold
    simp [merge_replace_fields, pyOr, hold]

/-- Witness for the amended C3 at a concrete merge. -/
theorem merge_replace_fields_spec_witness :
    (merge_replace_fields
        { datetime_original := some "2024-05-05T10:00:00"
          gps_altitude := none, gps_latitude := some 1, gps_longitude := none
          camera_make := some "Canon", user_comment := some ""
        }
        { datetime_original := none
          gps_altitude := some 7, gps_latitude := some 2, gps_longitude := none
          camera_make := some "Nikon", user_comment := some "keep"
        }).gps_latitude = some 1 := by
  have := merge_replace_fields_spec
    { datetime_original := some "2024-05-05T10:00:00"
      gps_altitude := none, gps_latitude := some 1, gps_longitude := none
      camera_make := some "Canon", user_comment := some "" }
    { datetime_original := none
      gps_altitude := some 7, gps_latitude := some 2, gps_longitude := none
      camera_make := some "Nikon", user_comment := some "keep" }
  rw [this.1]
  decide

/-! ## Commit retry (`app/processing/job_helpers.py`) -/

/-- Outcome of one `session.commit()` attempt: success, an
`OperationalError` that `is_sqlite_lock_error` recognises, or any other
error (re-raised). -/
inductive CommitOutcome where
  | ok
  | lockErr
  | otherErr
  deriving DecidableEq, Repr

/-- Result of `commit_with_retry`: `success` / `failed` mirror the
`True` / `False` returns, `raised` the re-raise of a non-lock error,
and `fellThrough` the implicit `None` when `attempts = 0` makes the
loop body never run. Each constructor records the sleeps performed (in
order) before that point. -/
inductive RetryResult where
  | success (attempt : Nat) (sleeps : List Rat)
  | raised (attempt : Nat) (sleeps : List Rat)
  | failed (sleeps : List Rat)
  | fellThrough (sleeps : List Rat)
  deriving DecidableEq, Repr

/-- The `for attempt in range(1, attempts + 1)` loop of
`commit_with_retry` (`app/processing/job_helpers.py` lines 27-41),
with `outcomes attempt` the oracle for the commit at that attempt and
`remaining = attempts + 1 - attempt` as fuel. On a lock error at
`attempt >= attempts` the function returns `False`; otherwise it sleeps
`base_sleep_s * attempt` and retries. -/
def retryGo (outcomes : Nat → CommitOutcome) (base : Rat) :
    Nat → Nat → List Rat → RetryResult
  | 0, _, sleeps => .fellThrough sleeps
  | remaining + 1, attempt, sleeps =>
      match outcomes attempt with
      | .ok => .success attempt sleeps
      | .otherErr => .raised attempt sleeps
      | .lockErr =>
          if remaining = 0 then .failed sleeps
          else retryGo outcomes base remaining (attempt + 1)
            (sleeps ++ [base * attempt])

/-- `commit_with_retry(session, label=..., attempts, base_sleep_s)`. -/
def commit_with_retry (outcomes : Nat → CommitOutcome) (attempts : Nat)
    (base : Rat) : RetryResult :=
  retryGo outcomes base attempts 1 []

/-- The linear sleep schedule `base_sleep_s * attempt` for `k`
consecutive attempts starting at `start`. -/
def linearSleeps (base : Rat) (start : Nat) : Nat → List Rat
  | 0 => []
  | k + 1 => base * start :: linearSleeps base (start + 1) k

theorem linearSleeps_zero (base : Rat) (start : Nat) :
    linearSleeps base start 0 = [] := rfl

theorem linearSleeps_succ (base : Rat) (start k : Nat) :
    linearSleeps base start (k + 1) =
      base * start :: linearSleeps base (start + 1) k := rfl

/-- If every attempt in the window raises a lock error, the loop sleeps
the linear schedule between attempts and returns `False` at the last
one. -/
theorem retryGo_all_lock (outcomes : Nat → CommitOutcome) (base : Rat) :
    ∀ (remaining attempt : Nat) (sleeps : List Rat),
      1 ≤ remaining →
      (∀ j, attempt ≤ j → j < attempt + remaining →
        outcomes j = .lockErr) →
      retryGo outcomes base remaining attempt sleeps =
        .failed (sleeps ++ linearSleeps base attempt (remaining - 1)) := by
  intro remaining
  induction remaining with
  | zero => intro attempt sleeps h1; omega
  | succ r ih =>
      intro attempt sleeps _ hall
      have hlock : outcomes attempt = .lockErr := by
        apply hall <;> omega
      rw [retryGo, hlock]
      cases r with
      | zero => simp [linearSleeps_zero]
      | succ r' =>
          have hne : r' + 1 ≠ 0 := by omega
          rw [if_neg hne]
          rw [ih (attempt + 1) (sleeps ++ [base * attempt]) (by omega)
            (by intro j hj1 hj2; apply hall <;> omega)]
          rw [Nat.succ_sub_one, Nat.succ_sub_one, linearSleeps_succ,
            List.append_assoc]
          rfl

/-- If attempts before `k` all raise lock errors and attempt `k`
succeeds within the window, the loop returns `True` at attempt `k`
having slept the linear schedule for attempts `attempt .. k-1`. -/
theorem retryGo_first_ok (outcomes : Nat → CommitOutcome) (base : Rat)
    (k : Nat) (hk : outcomes k = .ok) :
    ∀ (remaining attempt : Nat) (sleeps : List Rat),
      attempt ≤ k → k < attempt + remaining →
      (∀ j, attempt ≤ j → j < k → outcomes j = .lockErr) →
      retryGo outcomes base remaining attempt sleeps =
        .success k (sleeps ++ linearSleeps base attempt (k - attempt)) := by
  intro remaining
  induction remaining with
  | zero => intro attempt sleeps h1 h2; omega
  | succ r ih =>
      intro attempt sleeps hak hlt hall
      by_cases heq : attempt = k
      · subst heq
        rw [retryGo, hk]
        simp [linearSleeps_zero]
      · have hlock : outcomes attempt = .lockErr := by
          apply hall <;> omega
        rw [retryGo, hlock]
        have hne : r ≠ 0 := by omega
        rw [if_neg hne]
        cases r with
        | zero => omega
        | succ r' =>
            rw [ih (attempt + 1) (sleeps ++ [base * attempt]) (by omega)
              (by omega) (by intro j hj1 hj2; apply hall <;> omega)]
            have hsub : k - attempt = (k - (attempt + 1)) + 1 := by omega
            rw [hsub, linearSleeps_succ, List.append_assoc]
            rfl

/-- If attempts before `k` all raise lock errors and attempt `k`
raises a non-lock error within the window, the loop re-raises at
attempt `k` immediately, having slept only the linear schedule for the
earlier attempts. -/
theorem retryGo_first_other (outcomes : Nat → CommitOutcome) (base : Rat)
    (k : Nat) (hk : outcomes k = .otherErr) :
    ∀ (remaining attempt : Nat) (sleeps : List Rat),
      attempt ≤ k → k < attempt + remaining →
      (∀ j, attempt ≤ j → j < k → outcomes j = .lockErr) →
      retryGo outcomes base remaining attempt sleeps =
        .raised k (sleeps ++ linearSleeps base attempt (k - attempt)) := by
  intro remaining
  induction remaining with
  | zero => intro attempt sleeps h1 h2; omega
  | succ r ih =>
      intro attempt sleeps hak hlt hall
      by_cases heq : attempt = k
      · subst heq
        rw [retryGo, hk]
        simp [linearSleeps_zero]
      · have hlock : outcomes attempt = .lockErr := by
          apply hall <;> omega
        rw [retryGo, hlock]
        have hne : r ≠ 0 := by omega
        rw [if_neg hne]
        cases r with
        | zero => omega
        | succ r' =>
            rw [ih (attempt + 1) (sleeps ++ [base * attempt]) (by omega)
              (by omega) (by intro j hj1 hj2; apply hall <;> omega)]
            have hsub : k - attempt = (k - (attempt + 1)) + 1 := by omega
            rw [hsub, linearSleeps_succ, List.append_assoc]
            rfl

/-- Claim C9 counterexample: with every attempt hitting the lock error
and the default `attempts=6`, `base_sleep_s=0.2`, the sleeps performed
are `0.2, 0.4, 0.6, 0.8, 1.0` — a linearly increasing schedule. These
delays are not exponentially (geometrically) increasing: no common
ratio takes `0.2` to `0.4` and `0.4` to `0.6`. -/
theorem commit_with_retry_backoff_counterexample :
    commit_with_retry (fun _ => .lockErr) 6 (1/5) =
      .failed [1/5, 2/5, 3/5, 4/5, 1] ∧
    ¬ ∃ r : Rat, (2/5 : Rat) = r * (1/5) ∧ (3/5 : Rat) = r * (2/5) := by
  constructor
  · simp only [commit_with_retry, retryGo]
    norm_num
  · rintro ⟨r, h1, h2⟩
    have hr : r = 2 := by linarith
    rw [hr] at h2
    norm_num at h2

/-- Claim C9 (amended): `commit_with_retry` retries a lock-contention
failure up to the bounded attempt count (default 6), sleeping
`base_sleep_s * attempt` between successive attempts — a linearly
increasing backoff schedule; a non-lock error is re-raised immediately
at the attempt where it occurs; success stops the loop; and the
`False` failure report happens only after all attempts raised the lock
error. -/
theorem commit_with_retry_spec (outcomes : Nat → CommitOutcome)
    (base : Rat) (attempts k : Nat)
    (h1 : 1 ≤ attempts) (hk1 : 1 ≤ k) (hk : k ≤ attempts)
    (hbefore : ∀ j, 1 ≤ j → j < k → outcomes j = .lockErr) :
    ((∀ j, 1 ≤ j → j ≤ attempts → outcomes j = .lockErr) →
      commit_with_retry outcomes attempts base =
        .failed (linearSleeps base 1 (attempts - 1))) ∧
    (outcomes k = .ok →
      commit_with_retry outcomes attempts base =
        .success k (linearSleeps base 1 (k - 1))) ∧
    (outcomes k = .otherErr →
      commit_with_retry outcomes attempts base =
        .raised k (linearSleeps base 1 (k - 1))) := by
  refine ⟨?_, ?_, ?_⟩
  · intro hall
    rw [commit_with_retry,
      retryGo_all_lock outcomes base attempts 1 [] h1
        (by intro j hj1 hj2; exact hall j hj1 (by omega))]
    rfl
  · intro hok
    rw [commit_with_retry,
      retryGo_first_ok outcomes base k hok attempts 1 [] hk1 (by omega)
        hbefore]
    rfl
  · intro hother
    rw [commit_with_retry,
      retryGo_first_other outcomes base k hother attempts 1 [] hk1
        (by omega) hbefore]
    rfl

/-- Witness for the amended C9: lock errors on attempts 1-2, success at
attempt 3, out of 6 attempts with `base_sleep_s = 0.2`. -/
theorem commit_with_retry_spec_witness :
    commit_with_retry
        (fun j => if j < 3 then .lockErr else .ok) 6 (1/5) =
      .success 3 (linearSleeps (1/5) 1 2) := by
  have := commit_with_retry_spec
    (fun j => if j < 3 then .lockErr else .ok) (1/5) 6 3
    (by decide) (by decide) (by decide)
    (by intro j hj1 hj2
        have : j < 3 := hj2
        simp [this])
  exact this.2.1 (by decide)


/-! ## Ingest placement, collision suffixing and quarantine
(`app/processing/jobs/ingest.py`) -/

/-- The candidate name `f"{stem}__{i}{suffix}"` tried by `_safe_move` /
`_safe_copy` on a collision. -/
def collisionCandidate (stem suffix : String) (i : Nat) : String :=
  stem ++ "__" ++ toString i ++ suffix

/-- The `for i in range(1, 10_000)` collision loop shared by
`_safe_move` and `_safe_copy` (`app/processing/jobs/ingest.py` lines
38-42 and 54-58): try `i, i+1, ...` for `fuel` iterations, returning
the first candidate the filesystem predicate `ex` reports as absent.
`range(1, 10_000)` yields 9999 iterations. -/
def findFreeCandidate (ex : String → Bool) (stem suffix : String) :
    Nat → Nat → Option String
  | _, 0 => none
  | i, fuel + 1 =>
      if ex (collisionCandidate stem suffix i) = false then
        some (collisionCandidate stem suffix i)
      else findFreeCandidate ex stem suffix (i + 1) fuel

/-- The placement logic of `_safe_move` / `_safe_copy`: use `dst`
itself when absent, otherwise the collision loop over
`i ∈ range(1, 10_000)`; `none` models the
`RuntimeError("Too many name collisions")`. The actual move/copy of
bytes is the same in both functions up to the filesystem call used. -/
def safe_place (ex : String → Bool) (stem suffix : String) : Option String :=
  if ex (stem ++ suffix) = false then some (stem ++ suffix)
  else findFreeCandidate ex stem suffix 1 9999

/-- Any name the collision loop returns is absent on the filesystem. -/
theorem findFreeCandidate_some_absent (ex : String → Bool)
    (stem suffix : String) :
    ∀ (fuel i : Nat) (name : String),
      findFreeCandidate ex stem suffix i fuel = some name →
      ex name = false := by
  intro fuel
  induction fuel with
  | zero => intro i name h; simp [findFreeCandidate] at h
  | succ f ih =>
      intro i name h
      rw [findFreeCandidate] at h
      by_cases hex : ex (collisionCandidate stem suffix i) = false
      · rw [if_pos hex] at h
        cases h
        exact hex
      · rw [if_neg hex] at h
        exact ih (i + 1) name h

/-- If the first `k - i` candidates from `i` are all taken and
candidate `k` is free within the fuel window, the loop returns
candidate `k`. -/
theorem findFreeCandidate_first_free (ex : String → Bool)
    (stem suffix : String) (k : Nat)
    (hfree : ex (collisionCandidate stem suffix k) = false) :
    ∀ (fuel i : Nat),
      i ≤ k → k < i + fuel →
      (∀ j, i ≤ j → j < k → ex (collisionCandidate stem suffix j) = true) →
      findFreeCandidate ex stem suffix i fuel =
        some (collisionCandidate stem suffix k) := by
  intro fuel
  induction fuel with
  | zero => intro i h1 h2; omega
  | succ f ih =>
      intro i hik hlt hbusy
      by_cases heq : i = k
      · subst heq
        rw [findFreeCandidate, if_pos hfree]
      · have hbusy_i : ex (collisionCandidate stem suffix i) = true := by
          apply hbusy <;> omega
        rw [findFreeCandidate, if_neg (by simp [hbusy_i])]
        exact ih (i + 1) (by omega) (by omega)
          (by intro j hj1 hj2; apply hbusy <;> omega)

/-- If every candidate in the fuel window is taken, the loop fails. -/
theorem findFreeCandidate_exhausted (ex : String → Bool)
    (stem suffix : String) :
    ∀ (fuel i : Nat),
      (∀ j, i ≤ j → j < i + fuel →
        ex (collisionCandidate stem suffix j) = true) →
      findFreeCandidate ex stem suffix i fuel = none := by
  intro fuel
  induction fuel with
  | zero => intro i _; rfl
  | succ f ih =>
      intro i hbusy
      have hbusy_i : ex (collisionCandidate stem suffix i) = true := by
        apply hbusy <;> omega
      rw [findFreeCandidate, if_neg (by simp [hbusy_i])]
      exact ih (i + 1) (by intro j hj1 hj2; apply hbusy <;> omega)

/-- Length of a collision candidate in terms of the numeral's decimal
representation. -/
theorem collisionCandidate_length (stem suffix : String) (i : Nat) :
    (collisionCandidate stem suffix i).length =
      stem.length + 2 + (Nat.repr i).length + suffix.length := by
  show (stem ++ "__" ++ Nat.repr i ++ suffix).length = _
  simp only [String.length_append]
  rw [show ("__" : String).length = 2 from rfl]

/-- A filesystem on which every name is taken except the candidate
with suffix `__10000` — the first integer the collision loop never
tries. -/
def allButCandidate10000 : String → Bool :=
  fun s => !(s == "f__10000.jpg")

/-- Claim C8 counterexample: on `allButCandidate10000`, placement of
`f.jpg` fails (`RuntimeError`) even though candidate `__10000` — one of
"the first 10,000 integer suffixes" — does not exist: the loop is
`range(1, 10_000)` and tries only the 9,999 suffixes `__1 .. __9999`. -/
theorem safe_place_claim_counterexample :
    safe_place allButCandidate10000 "f" ".jpg" = none ∧
    allButCandidate10000 (collisionCandidate "f" ".jpg" 10000) = false := by
  constructor
  · have hdst : allButCandidate10000 ("f" ++ ".jpg") = true := rfl
    rw [safe_place, if_neg (by simp only [hdst]; decide)]
    apply findFreeCandidate_exhausted
    intro j hj1 hj2
    have hlen : (collisionCandidate "f" ".jpg" j).length ≤ 11 := by
      rw [collisionCandidate_length]
      have : (Nat.repr j).length ≤ 4 :=
        Nat.repr_length j 4 (by omega) (by omega)
      rw [show ("f" : String).length = 1 from rfl,
        show (".jpg" : String).length = 4 from rfl]
      omega
    have hne : collisionCandidate "f" ".jpg" j ≠ "f__10000.jpg" := by
      intro hEq
      have := congrArg String.length hEq
      rw [show ("f__10000.jpg" : String).length = 12 from rfl] at this
      omega
    simp [allButCandidate10000, hne]
  · decide

/-- Claim C8 (amended): on a destination collision the loop appends
`__N` for `N = 1, 2, ...` and succeeds at the first absent candidate;
it never returns a name that already exists; and it fails with the
"too many name collisions" error only after the 9,999 candidates
`__1 .. __9999` produced by `range(1, 10_000)` are all taken. -/
theorem safe_place_spec (ex : String → Bool) (stem suffix : String)
    (k : Nat) (hk1 : 1 ≤ k) (hk2 : k ≤ 9999) :
    (ex (stem ++ suffix) = false →
      safe_place ex stem suffix = some (stem ++ suffix)) ∧
    (ex (stem ++ suffix) = true →
      ex (collisionCandidate stem suffix k) = false →
      (∀ j, 1 ≤ j → j < k → ex (collisionCandidate stem suffix j) = true) →
      safe_place ex stem suffix = some (collisionCandidate stem suffix k)) ∧
    (∀ name, safe_place ex stem suffix = some name → ex name = false) ∧
    (ex (stem ++ suffix) = true →
      (∀ j, 1 ≤ j → j ≤ 9999 →
        ex (collisionCandidate stem suffix j) = true) →
      safe_place ex stem suffix = none) := by
  refine ⟨?_, ?_, ?_, ?_⟩
  · intro h
    rw [safe_place, if_pos h]
  · intro hdst hfree hbusy
    rw [safe_place, if_neg (by simp [hdst])]
    exact findFreeCandidate_first_free ex stem suffix k hfree 9999 1 hk1
      (by omega) hbusy
  · intro name h
    rw [safe_place] at h
    by_cases hdst : ex (stem ++ suffix) = false
    · rw [if_pos hdst] at h
      cases h
      exact hdst
    · rw [if_neg hdst] at h
      exact findFreeCandidate_some_absent ex stem suffix 9999 1 name h
  · intro hdst hbusy
    rw [safe_place, if_neg (by simp [hdst])]
    apply findFreeCandidate_exhausted
    intro j hj1 hj2
    apply hbusy <;> omega

/-- Witness for the amended C8: destination and `__1` taken, `__2`
free. -/
theorem safe_place_spec_witness :
    safe_place
        (fun s => s == "f" ++ ".jpg" || s == collisionCandidate "f" ".jpg" 1)
        "f" ".jpg" = some (collisionCandidate "f" ".jpg" 2) := by
  have := safe_place_spec
    (fun s => s == "f" ++ ".jpg" || s == collisionCandidate "f" ".jpg" 1)
    "f" ".jpg" 2 (by decide) (by decide)
  apply this.2.1
  · decide
  · decide
  · intro j hj1 hj2
    have : j = 1 := by omega
    subst this
    decide

/-! ## No-date quarantine in the ingest loop -/

/-- The configured ingest mode (`move` or `copy`). -/
inductive IngestMode where
  | move
  | copy
  deriving DecidableEq, Repr

/-- Where an item ends up after one iteration of the per-file loop of
`run_ingest_job`. -/
inductive ItemPlacement where
  | replaced
  | library (dest : String)
  | quarantined (mode : IngestMode)
  deriving DecidableEq, Repr

/-- Outcome of one iteration of the per-file loop: final placement,
how much the job's error counter grows for this file, and whether the
loop proceeds to the next item (`continue`). -/
structure ItemOutcome where
  placement : ItemPlacement
  errors_delta : Nat
  proceeds : Bool
  deriving DecidableEq, Repr

/-- `_infer_datetime_for_import(path, datetime_fallback_order)`
(`app/processing/jobs/ingest.py` lines 101-114): EXIF date if truthy;
else the filename-derived date when `"filename"` is in the fallback
order and truthy; else, when `"mtime"` is in the order, whatever the
mtime conversion yields (possibly nothing); else no date. The sidecar
JSON fallback is not consulted here at all. -/
def infer_datetime_for_import (exif_dt fname_dt mtime_dt : Option String)
    (order : List String) : Option String :=
  if truthyStr exif_dt then exif_dt
  else if order.contains "filename" && truthyStr fname_dt then fname_dt
  else if order.contains "mtime" then mtime_dt
  else none

/-- One iteration of the per-file loop of `run_ingest_job`
(`app/processing/jobs/ingest.py` lines 232-408) at the granularity of
placement and the error counter: the replace-by-name branch when the
filename stem is an existing catalog guid; otherwise the no-date
quarantine branch (lines 316-324: quarantine by move or copy per
ingest mode, `errors += 1`, `continue`); otherwise library placement,
with `laterFails` the oracle for an exception in the
record/upsert/derivative/commit sequence (which also quarantines and
counts one error). -/
def ingest_process_item (mode : IngestMode) (isReplace : Bool)
    (exif_dt fname_dt mtime_dt : Option String) (order : List String)
    (dest : String) (laterFails : Bool) : ItemOutcome :=
  if isReplace then
    { placement := .replaced, errors_delta := 0, proceeds := true }
  else if truthyStr (infer_datetime_for_import exif_dt fname_dt mtime_dt
      order) = false then
    { placement := .quarantined mode, errors_delta := 1, proceeds := true }
  else if laterFails then
    { placement := .quarantined mode, errors_delta := 1, proceeds := true }
  else
    { placement := .library dest, errors_delta := 0, proceeds := true }

/-- Claim C7: a staged file that is not a replace-by-name item and for
which no capture date can be determined ends up quarantined (moved or
copied per the ingest mode, never placed in the library), contributes
exactly one to the job's error counter, and the loop continues with
the next item. In particular a file with no (truthy) EXIF date, no
truthy filename date, and a fallback order without `"mtime"` has no
determinable date. -/
theorem ingest_no_date_quarantine (mode : IngestMode)
    (exif_dt fname_dt mtime_dt : Option String) (order : List String)
    (dest : String) (laterFails : Bool)
    (hnodate : truthyStr
      (infer_datetime_for_import exif_dt fname_dt mtime_dt order) = false) :
    (ingest_process_item mode false exif_dt fname_dt mtime_dt order dest
        laterFails =
      { placement := .quarantined mode, errors_delta := 1,
        proceeds := true }) ∧
    (∀ (e f m : Option String) (ord : List String),
      truthyStr e = false → truthyStr f = false →
      ord.contains "mtime" = false →
      truthyStr (infer_datetime_for_import e f m ord) = false) := by
  constructor
  · rw [ingest_process_item, if_neg (by simp), if_pos hnodate]
  · intro e f m ord he hf hm
    rw [infer_datetime_for_import]
    rw [if_neg (by simp [he])]
    by_cases hc : ord.contains "filename" && truthyStr f
    · rw [Bool.and_eq_true] at hc
      rw [hf] at hc
      exact absurd hc.2 (by simp)
    · rw [if_neg hc, if_neg (by simp only [hm]; decide)]
      rfl

/-- Witness for C7: EXIF and filename dates absent, fallback order
`["filename"]` (no mtime), move mode. -/
theorem ingest_no_date_quarantine_witness :
    ingest_process_item .move false none none (some "2024-01-01T00:00:00")
        ["filename"] "2024/01/01/a.jpg" false =
      { placement := .quarantined .move, errors_delta := 1,
        proceeds := true } := by
  exact (ingest_no_date_quarantine .move none none
    (some "2024-01-01T00:00:00") ["filename"] "2024/01/01/a.jpg" false
    (by decide)).1

/-! ## Reverse geocoding (`app/geocode.py`) -/

/-- Python `str.lower()` (and, for the ASCII provider/error strings
involved here, `str.casefold()`): lowercase every character. -/
def pyLower (s : String) : String :=
  String.mk (s.data.map Char.toLower)

/-- Python `str.strip()`: drop leading and trailing whitespace. -/
def pyStrip (s : String) : String :=
  String.mk
    (((s.data.dropWhile Char.isWhitespace).reverse.dropWhile
      Char.isWhitespace).reverse)

/-- Python `sub in s` substring containment. -/
def strContainsSub (s sub : String) : Bool :=
  s.data.tails.any (fun t => sub.data.isPrefixOf t)

/-- Python `" ".join(value.split()).strip() or None`
(`_normalize_text` in `app/geocode.py`): collapse whitespace runs,
map the empty result to `None`. -/
def normalize_text (v : Option String) : Option String :=
  match v with
  | none => none
  | some s =>
      let parts := (s.data.splitOnP Char.isWhitespace).filter (· ≠ [])
      let joined := String.mk (List.intercalate [' '] parts)
      if joined = "" then none else some joined

/-- `_normalize_city`: normalized text, casefolded. -/
def normalize_city (v : Option String) : Option String :=
  (normalize_text v).map pyLower

/-- `_is_geonames_hourly_limit_error` (`app/geocode.py` lines 62-68):
Python's `and` binds tighter than `or`. -/
def is_geonames_hourly_limit_error (msg : String) : Bool :=
  let m := pyLower msg
  strContainsSub m "hourly limit" ||
    (strContainsSub m "credits" && strContainsSub m "exceeded") ||
    strContainsSub m "please throttle your requests"

/-- `_mark_geonames_hourly_limit_hit` (`app/geocode.py` lines 50-54):
the cooldown is clamped to at least 60 seconds and the halt timestamp
only ever moves forward. -/
def mark_geonames_hourly_limit_hit (halt_until mono_now cooldown_s : Rat) :
    Rat :=
  max halt_until (mono_now + max 60 cooldown_s)

/-- `_geonames_is_halted`: the monotonic clock has not yet reached the
halt timestamp. -/
def geonames_is_halted (mono_now halt_until : Rat) : Bool :=
  mono_now < halt_until

/-- `safe_cell_m = max(10, int(cell_m))` in `_snap_to_grid`. -/
def geonames_safe_cell (cell_m : Int) : Int :=
  max 10 cell_m

/-- Latitude bucket step: `safe_cell_m / 111_320.0`. -/
def lat_step (cell_m : Int) : Rat :=
  (geonames_safe_cell cell_m : Rat) / 111320

/-- The clamp on `cos(lat)` in `_snap_to_grid` (lines 91-93): when the
magnitude is below 0.1 it is replaced by ±0.1, keeping the sign. -/
def clamp_cos (c : Rat) : Rat :=
  if |c| < 1/10 then (if 0 ≤ c then 1/10 else -(1/10)) else c

/-- Longitude bucket step:
`safe_cell_m / (111_320.0 * abs(cos_lat))` with the clamped cosine.
`cos_lat`, the value of `math.cos(math.radians(lat))`, is passed in as
an oracle for the transcendental library call. -/
def lon_step (cell_m : Int) (cos_lat : Rat) : Rat :=
  (geonames_safe_cell cell_m : Rat) / (111320 * |clamp_cos cos_lat|)

/-- `lat_bucket = int(math.floor(lat / lat_step))`. -/
def lat_bucket (lat : Rat) (cell_m : Int) : Int :=
  ⌊lat / lat_step cell_m⌋

/-- `lon_bucket = int(math.floor(lon / lon_step))`. -/
def lon_bucket (lon cos_lat : Rat) (cell_m : Int) : Int :=
  ⌊lon / lon_step cell_m cos_lat⌋

/-- `_snap_to_grid(lat, lon, cell_m)`: snapped coordinates and the two
bucket indices. -/
def snap_to_grid (lat lon cos_lat : Rat) (cell_m : Int) :
    Rat × Rat × Int × Int :=
  ((lat_bucket lat cell_m : Rat) * lat_step cell_m,
   (lon_bucket lon cos_lat cell_m : Rat) * lon_step cell_m cos_lat,
   lat_bucket lat cell_m,
   lon_bucket lon cos_lat cell_m)

/-- `_cache_key(provider, cell_m, lat_bucket, lon_bucket)`:
`f"{provider}:{cell_m}:{lat_bucket}:{lon_bucket}"`. -/
def geo_cache_key (provider : String) (cell_m : Int)
    (lat_b lon_b : Int) : String :=
  provider ++ ":" ++ toString cell_m ++ ":" ++ toString lat_b ++ ":" ++
    toString lon_b

theorem lat_step_100 : lat_step 100 = 5/5566 := by
  rw [lat_step, geonames_safe_cell,
    max_eq_right (by norm_num : (10:Int) ≤ 100)]
  norm_num

theorem lat_bucket_boundary_hi : lat_bucket (5/5566) 100 = 1 := by
  rw [lat_bucket, lat_step_100]
  rw [show ((5:Rat)/5566) / (5/5566) = 1 by norm_num]
  exact Int.floor_one

theorem lat_bucket_boundary_lo : lat_bucket (5/5566 - 1/1000000) 100 = 0 := by
  rw [lat_bucket, lat_step_100]
  apply Int.floor_eq_zero_iff.mpr
  constructor
  · norm_num
  · norm_num

/-- Claim C4: coordinates snapped to the same latitude and longitude
buckets yield the identical cache key string
`provider:cell_m:lat_bucket:lon_bucket`; the clamped cosine divisor
never drops below 0.1 in magnitude, so the longitude step is bounded by
`safe_cell_m / 11132`; and two concrete latitudes on either side of a
cell boundary (cell size 100 m) yield different keys. -/
theorem snap_to_grid_cache_key_deterministic
    (provider : String) (cell : Int)
    (lat1 lon1 c1 lat2 lon2 c2 : Rat)
    (hlat : lat_bucket lat1 cell = lat_bucket lat2 cell)
    (hlon : lon_bucket lon1 c1 cell = lon_bucket lon2 c2 cell) :
    (geo_cache_key provider cell (lat_bucket lat1 cell)
        (lon_bucket lon1 c1 cell) =
      geo_cache_key provider cell (lat_bucket lat2 cell)
        (lon_bucket lon2 c2 cell)) ∧
    (1/10 : Rat) ≤ |clamp_cos c1| ∧
    lon_step cell c1 ≤ (geonames_safe_cell cell : Rat) / 11132 ∧
    geo_cache_key "geonames" 100 (lat_bucket (5/5566) 100)
        (lon_bucket 0 1 100) ≠
      geo_cache_key "geonames" 100 (lat_bucket (5/5566 - 1/1000000) 100)
        (lon_bucket 0 1 100) := by
  have hclamp : ∀ c : Rat, (1/10 : Rat) ≤ |clamp_cos c| := by
    intro c
    rw [clamp_cos]
    have habs : |(1/10 : Rat)| = 1/10 := abs_of_nonneg (by norm_num)
    by_cases h : |c| < 1/10
    · rw [if_pos h]
      by_cases hc : 0 ≤ c
      · rw [if_pos hc, habs]
      · rw [if_neg hc, abs_neg, habs]
    · rw [if_neg h]
      linarith [not_lt.mp h]
  refine ⟨?_, hclamp c1, ?_, ?_⟩
  · rw [hlat, hlon]
  · rw [lon_step]
    have hs : (0:Rat) ≤ (geonames_safe_cell cell : Rat) := by
      have : (10:Int) ≤ geonames_safe_cell cell := le_max_left 10 cell
      have h10 : ((10:Int):Rat) ≤ (geonames_safe_cell cell : Rat) := by
        exact_mod_cast this
      push_cast at h10
      linarith
    have ha := hclamp c1
    have hpos1 : (0:Rat) < 11132 := by norm_num
    have hpos2 : (0:Rat) < 111320 * |clamp_cos c1| := by nlinarith
    rw [div_le_div_iff hpos2 hpos1]
    nlinarith
  · rw [lat_bucket_boundary_hi, lat_bucket_boundary_lo]
    have hlon0 : lon_bucket 0 1 100 = 0 := by
      rw [lon_bucket, zero_div]
      exact Int.floor_zero
    rw [hlon0]
    decide

/-- Witness for C4 at identical concrete coordinates. -/
theorem snap_to_grid_cache_key_deterministic_witness :
    (1/10 : Rat) ≤ |clamp_cos (1/2)| := by
  exact (snap_to_grid_cache_key_deterministic "geonames" 100
    1 2 (1/2) 1 2 (1/2) rfl rfl).2.1

/-- Photo fields consulted and written by `enrich_photo_location`. -/
structure PhotoGeo where
  gps_latitude : Option Rat
  gps_longitude : Option Rat
  geo_country_code : Option String
  geo_country : Option String
  geo_city : Option String
  geo_city_norm : Option String
  geo_region : Option String
  geo_postcode : Option String
  geo_display_name : Option String
  geo_provider : Option String
  geo_cache_key : Option String
  geo_lookup_at : Option String
  geo_lookup_status : Option String
  geo_lookup_error : Option String
  deriving DecidableEq, Repr

/-- A `reverse_geocode_cache` row (`class ReverseGeocodeCache`). -/
structure CacheRow where
  cache_key : String
  provider : String
  cell_m : Int
  lat_bucket : Rat
  lon_bucket : Rat
  country_code : Option String
  country : Option String
  city : Option String
  city_norm : Option String
  region : Option String
  postcode : Option String
  display_name : Option String
  raw_json : Option String
  fetched_at : String
  last_used_at : String
  hit_count : Int
  deriving DecidableEq, Repr

/-- The place-fields dict a successful `_geonames_lookup` returns. -/
structure GeoData where
  country_code : Option String
  country : Option String
  city : Option String
  region : Option String
  postcode : Option String
  display_name : Option String
  deriving DecidableEq, Repr

/-- Settings consumed by `enrich_photo_location`. -/
structure GeoSettings where
  geocode_enabled : Bool
  geocode_provider : String
  geocode_geonames_username : String
  geocode_cache_cell_m : Int
  geocode_hourly_limit_cooldown_s : Rat
  deriving DecidableEq, Repr

/-- How one `_lookup_provider_data` call ends, as an oracle for the
network: a place found, an empty result, an `HTTPError`, one of
`URLError`/`TimeoutError`/`RuntimeError` (whose message the
hourly-limit detector inspects), or any other exception. -/
inductive ProviderOutcome where
  | found (d : GeoData) (raw_json : Option String)
  | notFound
  | httpError (code : Option Int)
  | netError (excName msg : String)
  | otherError (excName msg : String)
  deriving DecidableEq, Repr

/-- `_should_lookup(photo)` (`app/geocode.py` lines 246-251). -/
def should_lookup (p : PhotoGeo) : Bool :=
  if p.gps_latitude = none ∨ p.gps_longitude = none then false
  else if p.geo_lookup_status = some "ok" && truthyStr p.geo_country &&
      truthyStr p.geo_city then false
  else true

/-- `_apply_cached_to_photo` (`app/geocode.py` lines 216-228). -/
def apply_cached_to_photo (p : PhotoGeo) (c : CacheRow)
    (provider cache_key now : String) : PhotoGeo :=
  { p with
    geo_country_code := c.country_code
    geo_country := c.country
    geo_city := c.city
    geo_city_norm := c.city_norm
    geo_region := c.region
    geo_postcode := c.postcode
    geo_display_name := c.display_name
    geo_provider := some provider
    geo_cache_key := some cache_key
    geo_lookup_at := some now
    geo_lookup_status := some "ok"
    geo_lookup_error := none }

/-- `_apply_result_to_photo` (`app/geocode.py` lines 231-243). -/
def apply_result_to_photo (p : PhotoGeo) (d : GeoData)
    (provider cache_key now : String) : PhotoGeo :=
  { p with
    geo_country_code := normalize_text d.country_code
    geo_country := normalize_text d.country
    geo_city := normalize_text d.city
    geo_city_norm := normalize_city d.city
    geo_region := normalize_text d.region
    geo_postcode := normalize_text d.postcode
    geo_display_name := normalize_text d.display_name
    geo_provider := some provider
    geo_cache_key := some cache_key
    geo_lookup_at := some now
    geo_lookup_status := some "ok"
    geo_lookup_error := none }

/-- Result of one `enrich_photo_location` call: the updated photo, the
returned changed flag, whether a provider request went out, the halt
timestamp afterwards, whether a cache row was hit, and the cache row
written (the bumped row on a hit, the fresh `hit_count=1` row on a
successful lookup). -/
structure EnrichResult where
  photo : PhotoGeo
  changed : Bool
  request_made : Bool
  halt_until : Rat
  cache_hit : Bool
  cache_written : Option CacheRow
  deriving DecidableEq, Repr

/-- The fixed error text of the quota-halt short-circuit. -/
def haltedErrorText : String :=
  "RuntimeError: GeoNames hourly limit previously exceeded; temporarily throttled"

/-- `enrich_photo_location(session, settings=..., photo=...)`
(`app/geocode.py` lines 254-354), with the monotonic clock, the halt
state, the cosine of the latitude, the cache row for the computed key
(`session.get(ReverseGeocodeCache, cache_key)`), the provider outcome
and the wall-clock `now` string passed explicitly. -/
def enrich_photo_location (settings : GeoSettings) (photo : PhotoGeo)
    (mono_now halt_until cos_lat : Rat) (cached : Option CacheRow)
    (outcome : ProviderOutcome) (now : String) : EnrichResult :=
  let noop : EnrichResult :=
    { photo := photo
      changed := false
      request_made := false
      halt_until := halt_until
      cache_hit := false
      cache_written := none }
  if settings.geocode_enabled = false then noop
  else if should_lookup photo = false then noop
  else
    let provider := pyLower (pyStrip settings.geocode_provider)
    if provider ≠ "geonames" then noop
    else if pyStrip settings.geocode_geonames_username = "" then noop
    else if geonames_is_halted mono_now halt_until then
      { photo :=
          { photo with
            geo_provider := some provider
            geo_lookup_at := some now
            geo_lookup_status := some "error"
            geo_lookup_error := some haltedErrorText }
        changed := true
        request_made := false
        halt_until := halt_until
        cache_hit := false
        cache_written := none }
    else
      match photo.gps_latitude, photo.gps_longitude with
      | some lat, some lon =>
          let cell := settings.geocode_cache_cell_m
          let latb := lat_bucket lat cell
          let lonb := lon_bucket lon cos_lat cell
          let key := geo_cache_key provider cell latb lonb
          match cached with
          | some c =>
              { photo := apply_cached_to_photo photo c provider key now
                changed := true
                request_made := false
                halt_until := halt_until
                cache_hit := true
                cache_written := some
                  { c with
                    last_used_at := now
                    hit_count := c.hit_count + 1 } }
          | none =>
              match outcome with
              | .httpError code =>
                  let detail :=
                    if code = some 401 ∨ code = some 403 then
                      "HTTPError: GeoNames rejected the request (401/403). Check GEOCODE_GEONAMES_USERNAME and confirm webservice is enabled on the GeoNames account."
                    else
                      "HTTPError: HTTP " ++
                        (match code with
                          | some c => toString c
                          | none => "")
                  { photo :=
                      { photo with
                        geo_provider := some provider
                        geo_cache_key := some key
                        geo_lookup_at := some now
                        geo_lookup_status := some "error"
                        geo_lookup_error := some detail }
                    changed := true
                    request_made := true
                    halt_until := halt_until
                    cache_hit := false
                    cache_written := none }
              | .netError excName msg =>
                  let halt' :=
                    if is_geonames_hourly_limit_error msg then
                      mark_geonames_hourly_limit_hit halt_until mono_now
                        settings.geocode_hourly_limit_cooldown_s
                    else halt_until
                  { photo :=
                      { photo with
                        geo_provider := some provider
                        geo_cache_key := some key
                        geo_lookup_at := some now
                        geo_lookup_status := some "error"
                        geo_lookup_error := some (excName ++ ": " ++ msg) }
                    changed := true
                    request_made := true
                    halt_until := halt'
                    cache_hit := false
                    cache_written := none }
              | .otherError excName msg =>
                  { photo :=
                      { photo with
                        geo_provider := some provider
                        geo_cache_key := some key
                        geo_lookup_at := some now
                        geo_lookup_status := some "error"
                        geo_lookup_error := some (excName ++ ": " ++ msg) }
                    changed := true
                    request_made := true
                    halt_until := halt_until
                    cache_hit := false
                    cache_written := none }
              | .notFound =>
                  { photo :=
                      { photo with
                        geo_provider := some provider
                        geo_cache_key := some key
                        geo_lookup_at := some now
                        geo_lookup_status := some "miss"
                        geo_lookup_error := none }
                    changed := true
                    request_made := true
                    halt_until := halt_until
                    cache_hit := false
                    cache_written := none }
              | .found d raw =>
                  let photo' := apply_result_to_photo photo d provider key now
                  { photo := photo'
                    changed := true
                    request_made := true
                    halt_until := halt_until
                    cache_hit := false
                    cache_written := some
                      { cache_key := key
                        provider := provider
                        cell_m := cell
                        lat_bucket := (latb : Rat)
                        lon_bucket := (lonb : Rat)
                        country_code := photo'.geo_country_code
                        country := photo'.geo_country
                        city := photo'.geo_city
                        city_norm := photo'.geo_city_norm
                        region := photo'.geo_region
                        postcode := photo'.geo_postcode
                        display_name := photo'.geo_display_name
                        raw_json := raw
                        fetched_at := now
                        last_used_at := now
                        hit_count := 1 } }
      | _, _ => noop

/-- A photo passing `_should_lookup` has both GPS coordinates. -/
theorem should_lookup_coords (p : PhotoGeo)
    (h : should_lookup p = true) :
    ∃ lat lon, p.gps_latitude = some lat ∧ p.gps_longitude = some lon := by
  rw [should_lookup] at h
  by_cases h1 : p.gps_latitude = none ∨ p.gps_longitude = none
  · rw [if_pos h1] at h
    cases h
  · push_neg at h1
    obtain ⟨hlat, hlon⟩ := h1
    obtain ⟨lat, hlat'⟩ := Option.ne_none_iff_exists'.mp hlat
    obtain ⟨lon, hlon'⟩ := Option.ne_none_iff_exists'.mp hlon
    exact ⟨lat, lon, hlat', hlon'⟩

/-- Claim C5: while the quota halt is active, a call that passes the
enabled/should-lookup/provider/username gates short-circuits: it stamps
lookup status `error` with the fixed throttled message, returns changed
= `true`, makes no provider request and leaves the halt timestamp
alone. Moreover `_mark_geonames_hourly_limit_hit` always pushes the
halt timestamp at least 60 seconds past the current monotonic time, for
every configured cooldown, and the halt window ends exactly when the
clock reaches the timestamp. -/
theorem enrich_quota_halt_shortcircuit (settings : GeoSettings)
    (photo : PhotoGeo) (mono_now halt_until cos_lat : Rat)
    (cached : Option CacheRow) (outcome : ProviderOutcome) (now : String)
    (hen : settings.geocode_enabled = true)
    (hsl : should_lookup photo = true)
    (hpv : pyLower (pyStrip settings.geocode_provider) = "geonames")
    (hun : pyStrip settings.geocode_geonames_username ≠ "")
    (hhalt : geonames_is_halted mono_now halt_until = true) :
    ((enrich_photo_location settings photo mono_now halt_until cos_lat
        cached outcome now).photo.geo_lookup_status = some "error") ∧
    ((enrich_photo_location settings photo mono_now halt_until cos_lat
        cached outcome now).photo.geo_lookup_error =
      some haltedErrorText) ∧
    ((enrich_photo_location settings photo mono_now halt_until cos_lat
        cached outcome now).changed = true) ∧
    ((enrich_photo_location settings photo mono_now halt_until cos_lat
        cached outcome now).request_made = false) ∧
    ((enrich_photo_location settings photo mono_now halt_until cos_lat
        cached outcome now).halt_until = halt_until) ∧
    (∀ h t c : Rat,
      t + 60 ≤ mark_geonames_hourly_limit_hit h t c) ∧
    (∀ t h : Rat, h ≤ t → geonames_is_halted t h = false) := by
  refine ⟨?_, ?_, ?_, ?_, ?_, ?_, ?_⟩
  · simp [enrich_photo_location, hen, hsl, hpv, hun, hhalt]
  · simp [enrich_photo_location, hen, hsl, hpv, hun, hhalt]
  · simp [enrich_photo_location, hen, hsl, hpv, hun, hhalt]
  · simp [enrich_photo_location, hen, hsl, hpv, hun, hhalt]
  · simp [enrich_photo_location, hen, hsl, hpv, hun, hhalt]
  · intro h t c
    calc t + 60 ≤ t + max 60 c := by
          have := le_max_left (60 : Rat) c
          linarith
      _ ≤ mark_geonames_hourly_limit_hit h t c :=
          le_max_right _ _
  · intro t h hle
    rw [geonames_is_halted]
    simp [not_lt.mpr hle]

/-- Concrete settings used to instantiate the geocoding theorems. -/
def geoSettingsSample : GeoSettings :=
  { geocode_enabled := true
    geocode_provider := "geonames"
    geocode_geonames_username := "user"
    geocode_cache_cell_m := 100
    geocode_hourly_limit_cooldown_s := 3600 }

/-- Concrete photo with GPS coordinates and no geocode state yet. -/
def photoGeoSample : PhotoGeo :=
  { gps_latitude := some 1
    gps_longitude := some 2
    geo_country_code := none
    geo_country := none
    geo_city := none
    geo_city_norm := none
    geo_region := none
    geo_postcode := none
    geo_display_name := none
    geo_provider := none
    geo_cache_key := none
    geo_lookup_at := none
    geo_lookup_status := none
    geo_lookup_error := none }

/-- Witness for C5 with the halt active (monotonic clock 0, halt until
10). -/
theorem enrich_quota_halt_shortcircuit_witness :
    (enrich_photo_location geoSettingsSample photoGeoSample 0 10 1 none
        .notFound "2024-01-01T00:00:00+00:00").photo.geo_lookup_status =
      some "error" ∧
    (enrich_photo_location geoSettingsSample photoGeoSample 0 10 1 none
        .notFound "2024-01-01T00:00:00+00:00").request_made = false := by
  have := enrich_quota_halt_shortcircuit geoSettingsSample photoGeoSample
    0 10 1 none .notFound "2024-01-01T00:00:00+00:00"
    (by decide) (by decide) (by decide) (by decide) (by decide)
  exact ⟨this.1, this.2.2.2.1⟩

/-- Claim C6 counterexample: during the quota-halt short-circuit the
photo's `geo_cache_key` is not stamped — the lookup attempt ends with
status `error` but the cache key field stays `None`, so not all four of
provider/cache key/lookup timestamp/status are set. -/
theorem enrich_halted_cache_key_counterexample :
    (enrich_photo_location geoSettingsSample photoGeoSample 0 10 1 none
        .notFound "2024-01-01T00:00:00+00:00").photo.geo_cache_key =
      none ∧
    (enrich_photo_location geoSettingsSample photoGeoSample 0 10 1 none
        .notFound "2024-01-01T00:00:00+00:00").photo.geo_lookup_status =
      some "error" := by
  decide

/-- Claim C6 (amended): every lookup attempt that passes the
enabled/should-lookup/provider/username gates stamps the photo's
`geo_provider`, `geo_lookup_at` and `geo_lookup_status` — on cache
hits, provider hits, misses and every error branch. All of these except
the quota-halted short-circuit also stamp `geo_cache_key`; the halted
branch leaves `geo_cache_key` untouched. -/
theorem enrich_stamps_lookup_fields (settings : GeoSettings)
    (photo : PhotoGeo) (mono_now halt_until cos_lat : Rat)
    (cached : Option CacheRow) (outcome : ProviderOutcome) (now : String)
    (hen : settings.geocode_enabled = true)
    (hsl : should_lookup photo = true)
    (hpv : pyLower (pyStrip settings.geocode_provider) = "geonames")
    (hun : pyStrip settings.geocode_geonames_username ≠ "") :
    ((enrich_photo_location settings photo mono_now halt_until cos_lat
        cached outcome now).photo.geo_provider = some "geonames") ∧
    ((enrich_photo_location settings photo mono_now halt_until cos_lat
        cached outcome now).photo.geo_lookup_at = some now) ∧
    ((enrich_photo_location settings photo mono_now halt_until cos_lat
        cached outcome now).photo.geo_lookup_status.isSome = true) ∧
    (geonames_is_halted mono_now halt_until = false →
      (enrich_photo_location settings photo mono_now halt_until cos_lat
        cached outcome now).photo.geo_cache_key.isSome = true) ∧
    (geonames_is_halted mono_now halt_until = true →
      (enrich_photo_location settings photo mono_now halt_until cos_lat
        cached outcome now).photo.geo_cache_key = photo.geo_cache_key) := by
  obtain ⟨lat, lon, hlat, hlon⟩ := should_lookup_coords photo hsl
  by_cases hh : geonames_is_halted mono_now halt_until
  · refine ⟨?_, ?_, ?_, ?_, ?_⟩ <;>
      simp [enrich_photo_location, hen, hsl, hpv, hun, hh]
  · have hh' : geonames_is_halted mono_now halt_until = false := by
      simpa using hh
    cases cached with
    | some c =>
        refine ⟨?_, ?_, ?_, ?_, ?_⟩ <;>
          simp [enrich_photo_location, hen, hsl, hpv, hun, hh', hlat,
            hlon, apply_cached_to_photo]
    | none =>
        cases outcome <;>
          (refine ⟨?_, ?_, ?_, ?_, ?_⟩ <;>
            simp [enrich_photo_location, hen, hsl, hpv, hun, hh', hlat,
              hlon, apply_result_to_photo])

/-- Witness for the amended C6 with the halt active. -/
theorem enrich_stamps_lookup_fields_witness :
    (enrich_photo_location geoSettingsSample photoGeoSample 0 10 1 none
        .notFound "2024-01-01T00:00:00+00:00").photo.geo_provider =
      some "geonames" ∧
    (enrich_photo_location geoSettingsSample photoGeoSample 0 10 1 none
        .notFound
        "2024-01-01T00:00:00+00:00").photo.geo_lookup_status.isSome =
      true := by
  have := enrich_stamps_lookup_fields geoSettingsSample photoGeoSample
    0 10 1 none .notFound "2024-01-01T00:00:00+00:00"
    (by decide) (by decide) (by decide) (by decide)
  exact ⟨this.1, this.2.2.1⟩

end Phototank
